import Mathlib

/-!
Formal model of the aufgaben_und_auswertung pipeline:
  build_variants_sortiert.py  (spreadsheet -> variants_sortiert.csv)
  analyse_bausteine.py        (variants_sortiert.csv -> reg_sum.csv / reg_presence.csv)
  plot_forest_bausteine.py    (reg_presence.csv -> two forest-plot PNGs)

Spreadsheet cells that the Python code pushes through pd.to_numeric(errors="coerce")
are modelled as Option Rat: some q is a cell whose content parses as the number q,
none is a cell whose content coerces to NaN (empty or non-numeric).  Floating point
values produced by the statistics library are modelled as real numbers, with
Option wrapping where the code stores NaN.  The statsmodels fit itself is external
to the repository and is modelled as an abstract function parameter; everything the
scripts do around it is translated statement by statement.
-/

/-! ### Generic helper: a left-to-right effectful map over Except

Models a Python for-loop that appends one element per iteration and lets
exceptions escape the loop. -/

def exMap {ε α β : Type} (f : α → Except ε β) : List α → Except ε (List β)
  | [] => .ok []
  | a :: l =>
    match f a with
    | .error e => .error e
    | .ok b =>
      match exMap f l with
      | .error e => .error e
      | .ok bs => .ok (b :: bs)

theorem exMap_ok_iff {ε α β : Type} {f : α → Except ε β} :
    ∀ {l : List α} {l2 : List β},
      exMap f l = .ok l2 ↔ List.Forall₂ (fun a b => f a = .ok b) l l2 := by
  intro l
  induction l with
  | nil =>
    intro l2
    constructor
    · intro h
      cases l2 with
      | nil => exact List.Forall₂.nil
      | cons b bs => simp [exMap] at h
    · intro h
      cases h
      rfl
  | cons a l ih =>
    intro l2
    constructor
    · intro h
      cases hfa : f a with
      | error e => simp [exMap, hfa] at h
      | ok b =>
        cases hrest : exMap f l with
        | error e => simp [exMap, hfa, hrest] at h
        | ok bs =>
          simp [exMap, hfa, hrest] at h
          subst h
          exact List.Forall₂.cons hfa (ih.mp hrest)
    · intro h
      cases h with
      | cons hab htl =>
        simp [exMap, hab, ih.mpr htl]

theorem exMap_ok_length {ε α β : Type} {f : α → Except ε β} {l : List α} {l2 : List β}
    (h : exMap f l = .ok l2) : l2.length = l.length :=
  (exMap_ok_iff.mp h).length_eq.symm

theorem forall₂_mem_right {α β : Type} {R : α → β → Prop} :
    ∀ {l : List α} {l2 : List β}, List.Forall₂ R l l2 → ∀ {b : β}, b ∈ l2 → ∃ a ∈ l, R a b := by
  intro l l2 h
  induction h with
  | nil => intro b hb; cases hb
  | cons hab _ ih =>
    intro b hb
    rcases List.mem_cons.mp hb with hb1 | hb2
    · subst hb1
      exact ⟨_, List.mem_cons_self _ _, hab⟩
    · rcases ih hb2 with ⟨a, ha, hfa⟩
      exact ⟨a, List.mem_cons_of_mem _ ha, hfa⟩

theorem exMap_ok_mem {ε α β : Type} {f : α → Except ε β} {l : List α} {l2 : List β}
    (h : exMap f l = .ok l2) {b : β} (hb : b ∈ l2) : ∃ a ∈ l, f a = .ok b :=
  forall₂_mem_right (exMap_ok_iff.mp h) hb

theorem forall₂_countP {α β : Type} {R : α → β → Prop} (p : α → Bool) (q : β → Bool) :
    ∀ {l : List α} {l2 : List β}, List.Forall₂ R l l2 →
      (∀ a b, R a b → q b = p a) → l2.countP q = l.countP p := by
  intro l l2 h
  induction h with
  | nil => intro _; rfl
  | cons hab _ ih =>
    intro hpq
    rw [List.countP_cons, List.countP_cons, ih hpq, hpq _ _ hab]

theorem exMap_countP {ε α β : Type} {f : α → Except ε β} {l : List α} {l2 : List β}
    (h : exMap f l = .ok l2) (p : α → Bool) (q : β → Bool)
    (hpq : ∀ a b, f a = .ok b → q b = p a) : l2.countP q = l.countP p :=
  forall₂_countP p q (exMap_ok_iff.mp h) hpq

theorem exMap_eq_map {ε α β : Type} {f : α → Except ε β} {g : α → β} :
    ∀ {l : List α}, (∀ a ∈ l, f a = .ok (g a)) → exMap f l = .ok (l.map g) := by
  intro l
  induction l with
  | nil => intro _; rfl
  | cons a l ih =>
    intro h
    have ha := h a (List.mem_cons_self _ _)
    have hl := ih (fun x hx => h x (List.mem_cons_of_mem _ hx))
    simp [exMap, ha, hl]

/-! ### Small string and number helpers shared by the script models -/

/-- Python str.strip(): drop leading and trailing whitespace. -/
def pyStrip (s : String) : String :=
  ⟨((s.data.dropWhile Char.isWhitespace).reverse.dropWhile Char.isWhitespace).reverse⟩

/-- Truncation toward zero, the semantics of Python int() and numpy astype(int)
on a finite numeric value. -/
def truncInt (q : ℚ) : ℤ := q.num.tdiv q.den

/-- Lexicographic comparison of character lists, the order pandas uses when
sorting a column of strings. -/
def lexLe : List Char → List Char → Bool
  | [], _ => true
  | _ :: _, [] => false
  | a :: as, b :: bs => if a < b then true else if a = b then lexLe as bs else false

def strLe (a b : String) : Bool := lexLe a.data b.data

/-! ## Script 1: build_variants_sortiert.py

The sheet after the header fixing of lines 31-38 (header row consumed,
variant_clean column added) is a list of data rows.  Each row records the
first column (variant), the cells of the comp. and pass columns, and the
cells of the baustein columns B1..Bk in sheet order. -/

abbrev Cell := Option ℚ

structure SheetRow where
  variant : String
  comp : Cell
  pass : Cell
  bs : List Cell
deriving DecidableEq, Inhabited

/-- One output row of variants_sortiert.csv (lines 79-91). -/
structure Record where
  variant : String
  cluster : String
  n_bausteine : ℤ
  comp : ℤ
  pass : ℤ
  bs : List ℤ
deriving DecidableEq

/-- The regex of line 43: a trimmed label entirely of the shape letters+digits
matches a task row (re.match is anchored at the start, and the trailing dollar
anchors the end). -/
def is_task_label (s : String) : Bool :=
  let cs := s.data
  let letters := cs.takeWhile Char.isAlpha
  let rest := cs.dropWhile Char.isAlpha
  !letters.isEmpty && !rest.isEmpty && rest.all Char.isDigit

/-- The regex of line 76: letters, then digits, then exactly one of a-e or A-E. -/
def is_variant_label (s : String) : Bool :=
  let cs := s.data
  let rest := cs.dropWhile Char.isAlpha
  let tail := rest.dropWhile Char.isDigit
  !(cs.takeWhile Char.isAlpha).isEmpty && !(rest.takeWhile Char.isDigit).isEmpty &&
    (match tail with
     | [c] => ('a' ≤ c && c ≤ 'e') || ('A' ≤ c && c ≤ 'E')
     | _ => false)

/-- df.loc lookup by positional index (the frame has a 0-based RangeIndex
after reset_index on line 37). -/
def rowAt (df : List SheetRow) (i : ℕ) : SheetRow := df.getD i default

/-- Column variant_clean of line 38: the stripped first-column label. -/
def variant_clean (r : SheetRow) : String := pyStrip r.variant

/-- Lines 49-54: baustein columns through pd.to_numeric(errors="coerce"),
fillna(0), astype(int). -/
def coerceB : Cell → ℤ
  | none => 0
  | some q => truncInt q

/-- Line 57: n_bausteine is the row sum of the coerced baustein columns. -/
def n_bausteine_of (r : SheetRow) : ℤ := (r.bs.map coerceB).sum

/-- Lines 43-44: indices of the rows whose trimmed label matches the task regex. -/
def task_indices (df : List SheetRow) : List ℕ :=
  (List.range df.length).filter (fun i => is_task_label (variant_clean (rowAt df i)))

/-- Lines 83-84: int(pd.to_numeric(cell, errors="coerce") or 0).
A cell that does not parse coerces to NaN; float NaN is truthy in Python, so
the `or 0` keeps the NaN and int(NaN) raises ValueError.  The `or 0` only
rewrites a parsed 0.0 into the integer 0, which int() would produce anyway. -/
def int_or_zero : Cell → Except String ℤ
  | none => .error "ValueError: cannot convert float NaN to integer"
  | some q => .ok (truncInt q)

/-- Line 77: the synthesized fallback label cluster + chr(64 + offset). -/
def synth_label (cluster : String) (offset : ℕ) : String :=
  cluster ++ String.singleton (Char.ofNat (64 + offset))

/-- Lines 72-91: build the record for the sub-row at distance offset below the
task row at taskIdx: the variant label is the sub-row's cleaned label, replaced
by the synthesized one when it does not match the variant regex; cluster,
n_bausteine and the baustein values come from the task row; comp and pass are
parsed from the sub-row. -/
def record_at (df : List SheetRow) (taskIdx offset : ℕ) : Except String Record :=
  match int_or_zero (rowAt df (taskIdx + offset)).comp with
  | .error e => .error e
  | .ok c =>
    match int_or_zero (rowAt df (taskIdx + offset)).pass with
    | .error e => .error e
    | .ok p =>
      .ok { variant :=
              if is_variant_label (variant_clean (rowAt df (taskIdx + offset))) then
                variant_clean (rowAt df (taskIdx + offset))
              else synth_label (variant_clean (rowAt df taskIdx)) offset,
            cluster := variant_clean (rowAt df taskIdx),
            n_bausteine := n_bausteine_of (rowAt df taskIdx),
            comp := c, pass := p,
            bs := (rowAt df taskIdx).bs.map coerceB }

/-- Lines 68-71: offsets 1..5 whose row index is still inside the sheet
(the continue on line 71 skips offsets past the end). -/
def valid_offsets (df : List SheetRow) (i : ℕ) : List ℕ :=
  [1, 2, 3, 4, 5].filter (fun o => i + o < df.length)

/-- The records the inner loop of lines 68-91 appends for one task row. -/
def records_of_task (df : List SheetRow) (i : ℕ) : Except String (List Record) :=
  exMap (record_at df i) (valid_offsets df i)

/-- Lines 62-93: the variant_rows list, in loop order. -/
def variant_rows (df : List SheetRow) : Except String (List Record) :=
  match exMap (records_of_task df) (task_indices df) with
  | .error e => .error e
  | .ok ls => .ok ls.flatten

/-- The boolean value of lines 96-97 on a nonempty table: groupby("cluster")
has some group whose size is not 5 (the negation of check.eq(5).all()). -/
def has_bad_cluster (recs : List Record) : Bool :=
  ((recs.map Record.cluster).dedup).any
    (fun c => (recs.filter (fun r => r.cluster == c)).length != 5)

/-- Lines 95-98 in full.  pd.DataFrame(variant_rows) takes its columns from
the record dicts, so with an empty variant_rows list the frame has no columns
at all and groupby("cluster") on line 96 raises KeyError before the check can
evaluate; on a nonempty table the check is the boolean has_bad_cluster. -/
def cluster_size_check (recs : List Record) : Except String Bool :=
  if recs.isEmpty then .error "KeyError: cluster"
  else .ok (has_bad_cluster recs)

/-- What the tail of the script observably does: whether the stderr warning of
line 98 fired, and the table written to variants_sortiert.csv on lines 103-108. -/
structure BuildOutput where
  warned : Bool
  csv : List Record
deriving DecidableEq

/-- Lines 62-108: build the table, run the five-variants check, export.
On a nonempty table the check only writes a warning and the export runs in
either case; an exception from record construction, or the KeyError the check
raises on an empty table, aborts the script before the export. -/
def run_build (df : List SheetRow) : Except String BuildOutput :=
  match variant_rows df with
  | .error e => .error e
  | .ok recs =>
    match cluster_size_check recs with
    | .error e => .error e
    | .ok w => .ok { warned := w, csv := recs }

/-! ## Script 2: analyse_bausteine.py

The input frame is read from variants_sortiert.csv.  A row is modelled by its
cluster cell (a string) together with a lookup from column name to the numeric
value of that column in the row (none for a NaN cell).  The statsmodels call
chain sm.add_constant / sm.Logit / fit is outside the repository; it is
modelled as an abstract function from the fully assembled fit specification
(endog column, exog column with the prepended constant, covariance type and
cluster groups) to either a fitted result or a raised exception. -/

structure AnRow where
  cluster : String
  vals : String → Option ℝ

/-- Everything lines 28-34 pass into statsmodels for one regression. -/
structure FitSpec where
  endog : List (Option ℝ)
  exog : List (ℝ × Option ℝ)
  covType : String
  groups : List String

/-- The three scalars lines 35, 36 and 42 read off a fitted result:
res.params[predictor], res.bse[predictor], res.pvalues[predictor]. -/
structure FitRes where
  beta : ℝ
  se : ℝ
  p : ℝ

/-- The exceptions a model.fit call can raise. -/
inductive FErr : Type
  | perfectSeparation
  | linAlgError
  | other (msg : String)
deriving DecidableEq

/-- Line 43: the except clause catches exactly PerfectSeparationError and
np.linalg.LinAlgError. -/
def caught_by_logit : FErr → Bool
  | .perfectSeparation => true
  | .linAlgError => true
  | .other _ => false

/-- The eight statistics a result row stores (none models NaN). -/
structure Stats where
  beta : Option ℝ
  SE : Option ℝ
  CI_low : Option ℝ
  CI_up : Option ℝ
  OR : Option ℝ
  OR_low : Option ℝ
  OR_up : Option ℝ
  p : Option ℝ

/-- Line 44: every statistic set to NaN. -/
def nanStats : Stats :=
  { beta := none, SE := none, CI_low := none, CI_up := none,
    OR := none, OR_low := none, OR_up := none, p := none }

/-- Lines 28-34: the specification handed to model.fit.  cov_type is the
literal "cluster" and the groups are the cluster column of the data. -/
noncomputable def specOf (data : List AnRow) (outcome predictor : String) : FitSpec :=
  { endog := data.map (fun r => r.vals outcome),
    exog := data.map (fun r => ((1 : ℝ), r.vals predictor)),
    covType := "cluster",
    groups := data.map AnRow.cluster }

/-- Lines 35-42: the statistics computed from a successful fit. -/
noncomputable def statsOf (res : FitRes) : Stats :=
  { beta := some res.beta,
    SE := some res.se,
    CI_low := some (res.beta - 1.96 * res.se),
    CI_up := some (res.beta + 1.96 * res.se),
    OR := some (Real.exp res.beta),
    OR_low := some (Real.exp (res.beta - 1.96 * res.se)),
    OR_up := some (Real.exp (res.beta + 1.96 * res.se)),
    p := some res.p }

/-- Lines 27-46: logit_cluster.  A successful fit yields the eight statistics;
a caught exception yields the all-NaN row; any other exception propagates. -/
noncomputable def logit_cluster (fit : FitSpec → Except FErr FitRes)
    (data : List AnRow) (outcome predictor : String) : Except FErr Stats :=
  match fit (specOf data outcome predictor) with
  | .ok res => .ok (statsOf res)
  | .error e => if caught_by_logit e then .ok nanStats else .error e

/-- One row of reg_sum.csv. -/
structure SumRow where
  Outcome : String
  stats : Stats

/-- One row of reg_presence.csv. -/
structure PresRow where
  Outcome : String
  Baustein : String
  stats : Stats

/-- One iteration of the loop of lines 52-64: regress outcome on n_bausteine
and append the row. -/
noncomputable def sum_row_step (fit : FitSpec → Except FErr FitRes) (df : List AnRow)
    (outcome : String) : Except FErr SumRow :=
  match logit_cluster fit df outcome "n_bausteine" with
  | .error e => .error e
  | .ok s => .ok { Outcome := outcome, stats := s }

/-- Lines 51-64: Modell A, one regression of each outcome on n_bausteine. -/
noncomputable def sum_rows (fit : FitSpec → Except FErr FitRes) (df : List AnRow) :
    Except FErr (List SumRow) :=
  exMap (sum_row_step fit df) ["comp", "pass"]

/-- The iteration space of the nested loops of lines 71-72: for every baustein
column the pairs (b, comp) then (b, pass), in loop order. -/
def presence_pairs : List String → List (String × String)
  | [] => []
  | b :: bs => (b, "comp") :: (b, "pass") :: presence_pairs bs

/-- One iteration of the nested loop body of lines 73-85: regress the pair's
outcome on the pair's baustein column and append the row. -/
noncomputable def presence_row_step (fit : FitSpec → Except FErr FitRes) (df : List AnRow)
    (bo : String × String) : Except FErr PresRow :=
  match logit_cluster fit df bo.2 bo.1 with
  | .error e => .error e
  | .ok s => .ok { Outcome := bo.2, Baustein := bo.1, stats := s }

/-- Lines 70-85: Modell B, one regression per (baustein column, outcome) pair. -/
noncomputable def presence_rows (fit : FitSpec → Except FErr FitRes) (df : List AnRow)
    (cols : List String) : Except FErr (List PresRow) :=
  exMap (presence_row_step fit df) (presence_pairs cols)

/-- The pandas sort key of line 89: ascending by Outcome, then by Baustein. -/
def le_outcome_baustein (a b : PresRow) : Bool :=
  strLe a.Outcome b.Outcome && (a.Outcome != b.Outcome || strLe a.Baustein b.Baustein)

/-- Lines 87-91: presence_results_df, the rows sorted by Outcome and Baustein;
this is the table written to reg_presence.csv on line 97. -/
noncomputable def presence_results (fit : FitSpec → Except FErr FitRes) (df : List AnRow)
    (cols : List String) : Except FErr (List PresRow) :=
  match presence_rows fit df cols with
  | .error e => .error e
  | .ok rows => .ok (rows.mergeSort le_outcome_baustein)

/-! ## Script 3: plot_forest_bausteine.py

The input is reg_presence.csv; only the Outcome, Baustein, OR, OR_low and
OR_up columns are read.  Values are the exact decimal numbers of the CSV
(none for an empty / non-numeric cell, which line 29 coerces to NaN). -/

structure PlotRow where
  Outcome : String
  Baustein : String
  OR : Option ℚ
  OR_low : Option ℚ
  OR_up : Option ℚ
deriving DecidableEq, Inhabited

/-- Series.str.contains(pat, case=False) for a plain-text pattern:
case-insensitive substring test. -/
def contains_ci (s pat : String) : Bool :=
  let sl := s.data.map Char.toLower
  let pl := pat.data.map Char.toLower
  (List.range (sl.length + 1)).any (fun i => pl.isPrefixOf (sl.drop i))

/-- sort_values("OR") ascending: NaN sorts after every number. -/
def or_key_le (a b : Option ℚ) : Bool :=
  match a, b with
  | none, none => true
  | none, some _ => false
  | some _, none => true
  | some x, some y => decide (x ≤ y)

/-- What one saved PNG observably shows: the rows in plotted order (line 35
sorts ascending by OR) and the y tick labels of line 56. -/
structure Forest where
  title : String
  png : String
  points : List PlotRow
  yLabels : List String
deriving Inhabited

/-- Lines 34-60: make_forest. -/
def make_forest (sub : List PlotRow) (title png : String) : Forest :=
  let s := sub.mergeSort (fun a b => or_key_le a.OR b.OR)
  { title := title, png := png, points := s, yLabels := s.map PlotRow.Baustein }

/-- Lines 65-75: the two make_forest calls, on the rows whose Outcome contains
comp respectively pass (case-insensitive). -/
def run_plot (csv : List PlotRow) : List Forest :=
  [ make_forest (csv.filter (fun r => contains_ci r.Outcome "comp"))
      "Einfluss der Integrationsbausteine auf die erfolgreiche Kompilierung"
      "forest_compilation.png",
    make_forest (csv.filter (fun r => contains_ci r.Outcome "pass"))
      "Einfluss der Integrationsbausteine auf den Testerfolg"
      "forest_testerfolg.png" ]

/-! ## The three scripts as runs

None of the three scripts reads the clock, a random source or the process
environment (the translations above consume the whole source of each script);
an explicit environment parameter records that a run could in principle have
observed such state. -/

structure Env where
  time : ℕ
  randomSeed : ℕ
  envVars : List (String × String)

/-- A run of build_variants_sortiert.py on the decoded sheet (the same
reshape, check and export as run_build, including the abort paths). -/
def run_build_script (_e : Env) (df : List SheetRow) : Except String BuildOutput :=
  run_build df

/-- A run of analyse_bausteine.py on the decoded CSV (both exported tables). -/
noncomputable def run_analyse_script (_e : Env) (fit : FitSpec → Except FErr FitRes)
    (df : List AnRow) (cols : List String) :
    Except FErr (List SumRow × List PresRow) :=
  match sum_rows fit df with
  | .error e => .error e
  | .ok s =>
    match presence_results fit df cols with
    | .error e => .error e
    | .ok p => .ok (s, p)

/-- A run of plot_forest_bausteine.py on the decoded CSV. -/
def run_plot_script (_e : Env) (csv : List PlotRow) : List Forest :=
  run_plot csv

/-! ## Concrete inputs used by witnesses and counterexamples -/

/-- A sheet with one task row (label I1) and a single following variant row. -/
def sheetA : List SheetRow :=
  [⟨"I1", some 1, some 1, [some 1]⟩, ⟨"I1a", some 1, some 1, [some 1]⟩]

/-- The one record the reshape produces from sheetA. -/
def recA : Record :=
  { variant := "I1a", cluster := "I1", n_bausteine := 1, comp := 1, pass := 1, bs := [1] }

/-- A sheet with one task row (label I2) followed by five variant rows. -/
def sheetB : List SheetRow :=
  [⟨"I2", some 1, some 0, [some 1, some 0]⟩,
   ⟨"I2a", some 1, some 1, []⟩,
   ⟨"I2b", some 0, some 0, []⟩,
   ⟨"I2c", some 1, some 0, []⟩,
   ⟨"I2d", some 0, some 1, []⟩,
   ⟨"I2e", some 1, some 1, []⟩]

/-- The record the reshape produces from sheetB for variant v with comp c, pass p. -/
def rec2 (v : String) (c p : ℤ) : Record :=
  { variant := v, cluster := "I2", n_bausteine := 1, comp := c, pass := p, bs := [1, 0] }

/-- The full output table of the reshape on sheetB. -/
def sheetBrecs : List Record :=
  [rec2 "I2a" 1 1, rec2 "I2b" 0 0, rec2 "I2c" 1 0, rec2 "I2d" 0 1, rec2 "I2e" 1 1]

/-- A sheet whose task row has a negative numeric baustein cell. -/
def sheetNeg : List SheetRow :=
  [⟨"I3", some 1, some 1, [some (-1), none]⟩, ⟨"I3a", some 1, some 1, []⟩]

/-- A sheet whose variant sub-row has a non-numeric comp. cell. -/
def sheetNaN : List SheetRow :=
  [⟨"I4", some 0, some 0, []⟩, ⟨"I4a", none, some 1, []⟩]

/-- A sheet whose only task row is the last sheet row: every offset is skipped
and the variant table comes out empty. -/
def sheetE : List SheetRow := [⟨"I9", some 1, some 1, []⟩]

/-- A fit that always raises PerfectSeparationError. -/
def cex_fit : FitSpec → Except FErr FitRes := fun _ => .error .perfectSeparation

/-- An analysis frame with one row whose comp column is numeric and whose other
columns are NaN. -/
noncomputable def c5df : List AnRow :=
  [⟨"K1", fun c => if c == "comp" then some 0 else none⟩]

/-- A fit that raises PerfectSeparationError when the outcome column has no NaN
and a KeyError otherwise: it distinguishes the two calls made on c5df. -/
def c5fit : FitSpec → Except FErr FitRes :=
  fun s => if s.endog.all Option.isSome then .error .perfectSeparation
           else .error (.other "KeyError")

/-! ## Claims -/

/-- Claim C9 (code_bug). The claim says building a variant record is total and
maps a non-parsing comp./pass cell to 0.  The code instead raises: pd.to_numeric
turns the cell into NaN, NaN is truthy so the `or 0` of lines 83-84 keeps it, and
int(NaN) raises ValueError.  A parsed value is truncated as the claim says.  The
theorem evaluates the model at the failing input: a sheet whose variant sub-row
has a non-numeric comp. cell makes the whole reshape raise instead of writing 0. -/
theorem claim_c9_nonnumeric_cell_raises :
    int_or_zero none = .error "ValueError: cannot convert float NaN to integer" ∧
    int_or_zero (some (mkRat 3 2)) = .ok 1 ∧
    int_or_zero (some 0) = .ok 0 ∧
    variant_rows sheetNaN = .error "ValueError: cannot convert float NaN to integer" :=
  ⟨rfl, rfl, rfl, rfl⟩

/-- Claim C4 (corrected): counterexample.  On a sheet whose variant table
comes out empty (the only task row is the last sheet row), no cluster violates
the five-rows condition, so the claim promises no warning and a completed
export; but pd.DataFrame([]) has no columns, groupby("cluster") on line 96
raises KeyError, and the script aborts before to_csv ever runs. -/
theorem claim_c4_counterexample :
    variant_rows sheetE = .ok [] ∧
    ¬ (∃ c ∈ ([] : List Record).map Record.cluster,
        (([] : List Record).filter (fun r => r.cluster == c)).length ≠ 5) ∧
    run_build sheetE = .error "KeyError: cluster" :=
  ⟨rfl, by simp, rfl⟩

/-- Claim C4 (amended). After the variant table is built, if the table is
nonempty then the stderr warning fires exactly when some cluster of the table
does not have exactly five rows, and the CSV export of the full table takes
place in either case (the warning never aborts or changes the output); on an
empty table the check itself raises KeyError and the export is never reached. -/
theorem claim_c4_warning_iff_bad_cluster (df : List SheetRow) (recs : List Record)
    (hv : variant_rows df = .ok recs) (hne : recs ≠ []) :
    run_build df = .ok { warned := has_bad_cluster recs, csv := recs } ∧
    (has_bad_cluster recs = true ↔
      ∃ c ∈ recs.map Record.cluster,
        (recs.filter (fun r => r.cluster == c)).length ≠ 5) := by
  have hemp : recs.isEmpty = false := by
    cases recs with
    | nil => exact absurd rfl hne
    | cons a t => rfl
  constructor
  · simp [run_build, hv, cluster_size_check, hemp]
  · simp [has_bad_cluster, List.any_eq_true, List.mem_dedup, bne_iff_ne]

theorem claim_c4_witness :
    run_build sheetA = .ok { warned := has_bad_cluster [recA], csv := [recA] } ∧
    (has_bad_cluster [recA] = true ↔
      ∃ c ∈ [recA].map Record.cluster,
        ([recA].filter (fun r => r.cluster == c)).length ≠ 5) :=
  claim_c4_warning_iff_bad_cluster sheetA [recA] rfl (by decide)

/-- Claim C7 (confirmed). Each script is a pure function of its input file
contents: a run does not depend on the time, the random state or the process
environment, so two runs on the same input are identical. -/
theorem claim_c7_deterministic (e1 e2 : Env) (df : List SheetRow)
    (fit : FitSpec → Except FErr FitRes) (adf : List AnRow) (cols : List String)
    (csv : List PlotRow) :
    run_build_script e1 df = run_build_script e2 df ∧
    run_analyse_script e1 fit adf cols = run_analyse_script e2 fit adf cols ∧
    run_plot_script e1 csv = run_plot_script e2 csv :=
  ⟨rfl, rfl, rfl⟩

/-- Claim C3 (confirmed). In a result row from a successful fit, OR is the
exponential of beta and OR_low, OR_up the exponentials of beta minus and plus
1.96 SE, and with SE ≥ 0 the ordering OR_low ≤ OR ≤ OR_up holds. -/
theorem claim_c3_odds_ratio_order (res : FitRes) (lo mid hi : ℝ)
    (hlo : (statsOf res).OR_low = some lo)
    (hmid : (statsOf res).OR = some mid)
    (hhi : (statsOf res).OR_up = some hi)
    (hse : 0 ≤ res.se) :
    mid = Real.exp res.beta ∧
    lo = Real.exp (res.beta - 1.96 * res.se) ∧
    hi = Real.exp (res.beta + 1.96 * res.se) ∧
    lo ≤ mid ∧ mid ≤ hi := by
  simp only [statsOf, Option.some.injEq] at hlo hmid hhi
  subst hlo hmid hhi
  have hstep : (0 : ℝ) ≤ 1.96 * res.se := by nlinarith
  refine ⟨rfl, rfl, rfl, ?_, ?_⟩
  · exact Real.exp_le_exp.mpr (by linarith)
  · exact Real.exp_le_exp.mpr (by linarith)

theorem claim_c3_witness :
    Real.exp (0 : ℝ) = Real.exp (0 : ℝ) ∧
    Real.exp ((0 : ℝ) - 1.96 * 1) = Real.exp ((0 : ℝ) - 1.96 * 1) ∧
    Real.exp ((0 : ℝ) + 1.96 * 1) = Real.exp ((0 : ℝ) + 1.96 * 1) ∧
    Real.exp ((0 : ℝ) - 1.96 * 1) ≤ Real.exp (0 : ℝ) ∧
    Real.exp (0 : ℝ) ≤ Real.exp ((0 : ℝ) + 1.96 * 1) :=
  claim_c3_odds_ratio_order ⟨0, 1, 0⟩ (Real.exp ((0 : ℝ) - 1.96 * 1)) (Real.exp (0 : ℝ))
    (Real.exp ((0 : ℝ) + 1.96 * 1)) rfl rfl rfl (by norm_num)

/-- Claim C5 (corrected): counterexample.  The claim says the cluster-size
warning check is the only failure recovery in the pipeline.  But logit_cluster
catches PerfectSeparationError (and LinAlgError) and recovers by returning the
all-NaN row: with a fit that raises PerfectSeparationError the call still
returns a result instead of propagating the exception. -/
theorem claim_c5_counterexample :
    cex_fit (specOf [] "comp" "B1") = .error FErr.perfectSeparation ∧
    logit_cluster cex_fit [] "comp" "B1" = .ok nanStats :=
  ⟨rfl, rfl⟩

/-- Claim C5 (amended). The failure recoveries of the pipeline are exactly the
cluster-size warning check (which, on a nonempty table, only writes a warning
and never changes the exported table) and the try/except of logit_cluster,
which catches PerfectSeparationError and LinAlgError into an all-NaN row;
every other exception propagates uncaught - including the KeyError the check
itself raises on an empty table, which aborts the build script. -/
theorem claim_c5_recovery_inventory (fit : FitSpec → Except FErr FitRes)
    (df : List AnRow) (o1 p1 o2 p2 msg : String) (e1 e2 : FErr)
    (dfB dfE : List SheetRow) (recs : List Record)
    (h1 : fit (specOf df o1 p1) = .error e1) (hc1 : caught_by_logit e1 = true)
    (h2 : fit (specOf df o2 p2) = .error e2) (hc2 : caught_by_logit e2 = false)
    (hb : variant_rows dfB = .ok recs) (hne : recs ≠ [])
    (hE : variant_rows dfE = .ok ([] : List Record)) :
    logit_cluster fit df o1 p1 = .ok nanStats ∧
    logit_cluster fit df o2 p2 = .error e2 ∧
    run_build dfB = .ok { warned := has_bad_cluster recs, csv := recs } ∧
    run_build dfE = .error "KeyError: cluster" ∧
    caught_by_logit FErr.perfectSeparation = true ∧
    caught_by_logit FErr.linAlgError = true ∧
    caught_by_logit (FErr.other msg) = false := by
  have hemp : recs.isEmpty = false := by
    cases recs with
    | nil => exact absurd rfl hne
    | cons a t => rfl
  refine ⟨?_, ?_, ?_, ?_, rfl, rfl, rfl⟩
  · rw [logit_cluster, h1]
    simp [hc1]
  · rw [logit_cluster, h2]
    simp [hc2]
  · simp [run_build, hb, cluster_size_check, hemp]
  · simp [run_build, hE, cluster_size_check]

theorem claim_c5_witness :
    logit_cluster c5fit c5df "comp" "B1" = .ok nanStats ∧
    logit_cluster c5fit c5df "pass" "B1" = .error (FErr.other "KeyError") ∧
    run_build sheetA = .ok { warned := has_bad_cluster [recA], csv := [recA] } ∧
    run_build sheetE = .error "KeyError: cluster" ∧
    caught_by_logit FErr.perfectSeparation = true ∧
    caught_by_logit FErr.linAlgError = true ∧
    caught_by_logit (FErr.other "KeyError") = false :=
  claim_c5_recovery_inventory c5fit c5df "comp" "B1" "pass" "B1" "KeyError"
    FErr.perfectSeparation (FErr.other "KeyError") sheetA sheetE [recA]
    rfl rfl rfl rfl rfl (by decide) rfl

/-! ## Supporting lemmas about the reshape -/

/-- Any record built by record_at inherits cluster, baustein values and
n_bausteine from its task row. -/
theorem record_at_ok {df : List SheetRow} {i o : ℕ} {r : Record}
    (h : record_at df i o = .ok r) :
    r.cluster = variant_clean (rowAt df i) ∧
    r.bs = (rowAt df i).bs.map coerceB ∧
    r.n_bausteine = n_bausteine_of (rowAt df i) := by
  rw [record_at] at h
  cases hc : int_or_zero (rowAt df (i + o)).comp with
  | error e => rw [hc] at h; simp at h
  | ok c =>
    rw [hc] at h
    cases hp : int_or_zero (rowAt df (i + o)).pass with
    | error e => rw [hp] at h; simp at h
    | ok p =>
      rw [hp] at h
      simp only [Except.ok.injEq] at h
      subst h
      exact ⟨rfl, rfl, rfl⟩

/-- When every task row is followed by at least five sheet rows, no offset is
skipped, so records_of_task yields exactly five records. -/
theorem records_of_task_length_five {df : List SheetRow} {i : ℕ} {l : List Record}
    (h5 : i + 5 < df.length) (h : records_of_task df i = .ok l) : l.length = 5 := by
  have hval : valid_offsets df i = [1, 2, 3, 4, 5] := by
    rw [valid_offsets]
    apply List.filter_eq_self.mpr
    intro o ho
    simp only [List.mem_cons, List.mem_singleton] at ho
    simp only [decide_eq_true_eq]
    rcases ho with rfl | rfl | rfl | rfl | rfl | hfalse
    · omega
    · omega
    · omega
    · omega
    · omega
    · cases hfalse
  rw [records_of_task, hval] at h
  have := exMap_ok_length h
  simpa using this

/-! ## Claim C10 and the analyse recovery behaviour -/

/-- The statistics the analysis stores for a given outcome/predictor call when
every exception the fit can raise is one of the caught classes: a successful
fit's statistics, an exception's all-NaN row. -/
noncomputable def recovered_stats (fit : FitSpec → Except FErr FitRes) (df : List AnRow)
    (outcome predictor : String) : Stats :=
  match fit (specOf df outcome predictor) with
  | .ok r => statsOf r
  | .error _ => nanStats

/-- The presence row the loop appends for one pair under the same hypothesis. -/
noncomputable def row_of_pair (fit : FitSpec → Except FErr FitRes) (df : List AnRow)
    (bo : String × String) : PresRow :=
  { Outcome := bo.2, Baustein := bo.1, stats := recovered_stats fit df bo.2 bo.1 }

/-- When the fit only ever raises caught exceptions, logit_cluster returns the
recovered statistics and never an error. -/
theorem logit_cluster_recovered (fit : FitSpec → Except FErr FitRes) (df : List AnRow)
    (hall : ∀ s e2, fit s = .error e2 → caught_by_logit e2 = true)
    (outcome predictor : String) :
    logit_cluster fit df outcome predictor =
      .ok (recovered_stats fit df outcome predictor) := by
  cases hfit : fit (specOf df outcome predictor) with
  | ok r => rw [logit_cluster, recovered_stats, hfit]
  | error e2 =>
    rw [logit_cluster, recovered_stats, hfit]
    simp [hall _ _ hfit]

/-- Claim C10 (confirmed). When fitting raises PerfectSeparationError or a
linear-algebra error, logit_cluster returns NaN for all eight statistics, the
all-NaN result row is still appended, and the remaining regressions of the loop
still run: under a fit whose exceptions are all caught, the presence loop
completes with one row per pair. -/
theorem claim_c10_caught_errors_recovered (fit : FitSpec → Except FErr FitRes)
    (df : List AnRow) (cols : List String) (outcome predictor : String) (e : FErr)
    (hcall : fit (specOf df outcome predictor) = .error e)
    (hall : ∀ s e2, fit s = .error e2 → caught_by_logit e2 = true) :
    logit_cluster fit df outcome predictor = .ok nanStats ∧
    nanStats.beta = none ∧ nanStats.SE = none ∧ nanStats.CI_low = none ∧
    nanStats.CI_up = none ∧ nanStats.OR = none ∧ nanStats.OR_low = none ∧
    nanStats.OR_up = none ∧ nanStats.p = none ∧
    presence_rows fit df cols = .ok ((presence_pairs cols).map (row_of_pair fit df)) := by
  refine ⟨?_, rfl, rfl, rfl, rfl, rfl, rfl, rfl, rfl, ?_⟩
  · rw [logit_cluster, hcall]
    simp [hall _ _ hcall]
  · rw [presence_rows]
    apply exMap_eq_map
    intro bo _
    rw [presence_row_step, logit_cluster_recovered fit df hall, row_of_pair]

theorem claim_c10_witness :
    logit_cluster cex_fit [] "comp" "B1" = .ok nanStats ∧
    nanStats.beta = none ∧ nanStats.SE = none ∧ nanStats.CI_low = none ∧
    nanStats.CI_up = none ∧ nanStats.OR = none ∧ nanStats.OR_low = none ∧
    nanStats.OR_up = none ∧ nanStats.p = none ∧
    presence_rows cex_fit [] ["B1"] =
      .ok ((presence_pairs ["B1"]).map (row_of_pair cex_fit [])) :=
  claim_c10_caught_errors_recovered cex_fit [] ["B1"] "comp" "B1"
    FErr.perfectSeparation rfl
    (by intro s e2 he2; injection he2 with h; rw [← h]; rfl)

/-! ## Claims C8 and C1 about the reshape -/

/-- The record the reshape produces from sheetNeg: it carries a negative
baustein value. -/
def recNeg : Record :=
  { variant := "I3a", cluster := "I3", n_bausteine := -1, comp := 1, pass := 1, bs := [-1, 0] }

/-- Claim C8 (corrected): counterexample.  The claim asserts every B-column
value of the output is nonnegative; but a task row whose baustein cell holds a
negative number passes astype(int) unchanged, so the exported row contains a
negative B value. -/
theorem claim_c8_counterexample :
    variant_rows sheetNeg = .ok [recNeg] ∧
    (-1 : ℤ) ∈ recNeg.bs ∧
    ¬ (0 ≤ (-1 : ℤ)) :=
  ⟨rfl, by decide, by decide⟩

/-- Claim C8 (amended). In every output row the B values are the task row's
coerced integer cells, with a non-numeric cell coerced to 0, and n_bausteine
equals the sum of the row's own B values. -/
theorem claim_c8_sum_invariant (df : List SheetRow) (recs : List Record) (r : Record)
    (hok : variant_rows df = .ok recs) (hr : r ∈ recs) :
    r.n_bausteine = r.bs.sum ∧ coerceB none = 0 := by
  refine ⟨?_, rfl⟩
  cases hex : exMap (records_of_task df) (task_indices df) with
  | error e => rw [variant_rows, hex] at hok; cases hok
  | ok ls =>
    rw [variant_rows, hex] at hok
    injection hok with h1
    subst h1
    rcases List.mem_flatten.mp hr with ⟨lj, hlj, hrlj⟩
    rcases forall₂_mem_right (exMap_ok_iff.mp hex) hlj with ⟨j, _, hj⟩
    rcases exMap_ok_mem hj hrlj with ⟨o, _, ho⟩
    rcases record_at_ok ho with ⟨_, hbs, hn⟩
    rw [hn, hbs, n_bausteine_of]

theorem claim_c8_witness :
    (rec2 "I2a" 1 1).n_bausteine = (rec2 "I2a" 1 1).bs.sum ∧ coerceB none = 0 :=
  claim_c8_sum_invariant sheetB sheetBrecs (rec2 "I2a" 1 1) rfl (by decide)

/-- Claim C1 (corrected): counterexample.  On a sheet whose single task row is
followed by only one row, the output table has a cluster (I1) with one variant
row, not five, so the claim's conclusion that every cluster of the output has
exactly five variant rows fails. -/
theorem claim_c1_counterexample :
    variant_rows sheetA = .ok [recA] ∧
    [recA].map Record.cluster = ["I1"] ∧
    (([recA]).filter (fun r => r.cluster == "I1")).length = 1 ∧
    (([recA]).filter (fun r => r.cluster == "I1")).length ≠ 5 :=
  ⟨rfl, rfl, rfl, by decide⟩

/-! ## Claim C2: the regression grid -/

theorem presence_pairs_length : ∀ cols : List String,
    (presence_pairs cols).length = 2 * cols.length := by
  intro cols
  induction cols with
  | nil => rfl
  | cons c cs ih => simp [presence_pairs, ih]; omega

theorem presence_pairs_countP_fst (b : String) : ∀ cols : List String,
    (presence_pairs cols).countP (fun pr => pr.1 == b) =
      2 * cols.countP (fun c => c == b) := by
  intro cols
  induction cols with
  | nil => rfl
  | cons c cs ih =>
    by_cases hcb : (c == b) = true
    all_goals simp [presence_pairs, List.countP_cons, ih, hcb]
    all_goals omega

theorem presence_pairs_countP_comp (b : String) : ∀ cols : List String,
    (presence_pairs cols).countP (fun pr => pr.1 == b && pr.2 == "comp") =
      cols.countP (fun c => c == b) := by
  intro cols
  have h1 : (("comp" : String) == "comp") = true := rfl
  have h2 : (("pass" : String) == "comp") = false := rfl
  induction cols with
  | nil => rfl
  | cons c cs ih =>
    by_cases hcb : (c == b) = true <;>
      simp [presence_pairs, List.countP_cons, ih, hcb, h1, h2]

theorem presence_pairs_countP_pass (b : String) : ∀ cols : List String,
    (presence_pairs cols).countP (fun pr => pr.1 == b && pr.2 == "pass") =
      cols.countP (fun c => c == b) := by
  intro cols
  have h1 : (("comp" : String) == "pass") = false := rfl
  have h2 : (("pass" : String) == "pass") = true := rfl
  induction cols with
  | nil => rfl
  | cons c cs ih =>
    by_cases hcb : (c == b) = true <;>
      simp [presence_pairs, List.countP_cons, ih, hcb, h1, h2]

/-- A presence row carries the baustein and outcome of its loop pair. -/
theorem presence_row_step_ok {fit : FitSpec → Except FErr FitRes} {df : List AnRow}
    {bo : String × String} {r : PresRow} (h : presence_row_step fit df bo = .ok r) :
    r.Baustein = bo.1 ∧ r.Outcome = bo.2 := by
  rw [presence_row_step] at h
  cases hlc : logit_cluster fit df bo.2 bo.1 with
  | error e => rw [hlc] at h; simp at h
  | ok s =>
    rw [hlc] at h
    simp only [Except.ok.injEq] at h
    subst h
    exact ⟨rfl, rfl⟩

/-- A sum row carries the outcome of its loop iteration. -/
theorem sum_row_step_ok {fit : FitSpec → Except FErr FitRes} {df : List AnRow}
    {o : String} {r : SumRow} (h : sum_row_step fit df o = .ok r) : r.Outcome = o := by
  rw [sum_row_step] at h
  cases hlc : logit_cluster fit df o "n_bausteine" with
  | error e => rw [hlc] at h; simp at h
  | ok s =>
    rw [hlc] at h
    simp only [Except.ok.injEq] at h
    subst h
    rfl

/-- Claim C2 (confirmed). The analysis runs one regression per outcome on
n_bausteine (2 rows in reg_sum.csv, one per outcome, in order) and one per
baustein column and outcome (2 rows per column in reg_presence.csv, one per
outcome), and every fit is handed cov_type cluster with the cluster column as
groups. -/
theorem claim_c2_regression_grid (fit : FitSpec → Except FErr FitRes) (df : List AnRow)
    (cols : List String) (b o2 p2 : String) (srows : List SumRow) (rows0 : List PresRow)
    (hnd : cols.Nodup) (hb : b ∈ cols)
    (hs : sum_rows fit df = .ok srows)
    (hp : presence_rows fit df cols = .ok rows0) :
    srows.length = 2 ∧
    srows.map SumRow.Outcome = ["comp", "pass"] ∧
    presence_results fit df cols = .ok (rows0.mergeSort le_outcome_baustein) ∧
    ((rows0.mergeSort le_outcome_baustein).filter
        (fun r => r.Baustein == b)).length = 2 ∧
    ((rows0.mergeSort le_outcome_baustein).filter
        (fun r => r.Baustein == b && r.Outcome == "comp")).length = 1 ∧
    ((rows0.mergeSort le_outcome_baustein).filter
        (fun r => r.Baustein == b && r.Outcome == "pass")).length = 1 ∧
    (rows0.mergeSort le_outcome_baustein).length = 2 * cols.length ∧
    (specOf df o2 p2).covType = "cluster" ∧
    (specOf df o2 p2).groups = df.map AnRow.cluster := by
  have hcount1 : cols.countP (fun c => c == b) = 1 := by
    rw [← List.count_eq_countP]
    exact List.count_eq_one_of_mem hnd hb
  have hperm := List.mergeSort_perm rows0 le_outcome_baustein
  refine ⟨exMap_ok_length hs, ?_, ?_, ?_, ?_, ?_, ?_, rfl, rfl⟩
  · rcases exMap_ok_iff.mp hs with _ | ⟨h1, htl⟩
    rcases htl with _ | ⟨h2, hnil⟩
    cases hnil
    simp [sum_row_step_ok h1, sum_row_step_ok h2]
  · rw [presence_results, hp]
  · rw [← List.countP_eq_length_filter, hperm.countP_eq,
      exMap_countP hp (fun pr => pr.1 == b) (fun r => r.Baustein == b) ?_,
      presence_pairs_countP_fst, hcount1]
    intro pr r hr
    simp only [(presence_row_step_ok hr).1]
  · rw [← List.countP_eq_length_filter, hperm.countP_eq,
      exMap_countP hp (fun pr => pr.1 == b && pr.2 == "comp")
        (fun r => r.Baustein == b && r.Outcome == "comp") ?_,
      presence_pairs_countP_comp, hcount1]
    intro pr r hr
    simp only [(presence_row_step_ok hr).1, (presence_row_step_ok hr).2]
  · rw [← List.countP_eq_length_filter, hperm.countP_eq,
      exMap_countP hp (fun pr => pr.1 == b && pr.2 == "pass")
        (fun r => r.Baustein == b && r.Outcome == "pass") ?_,
      presence_pairs_countP_pass, hcount1]
    intro pr r hr
    simp only [(presence_row_step_ok hr).1, (presence_row_step_ok hr).2]
  · rw [hperm.length_eq, exMap_ok_length hp, presence_pairs_length]

/-- The two reg_sum rows the witness fit produces. -/
def c2srows : List SumRow := [⟨"comp", nanStats⟩, ⟨"pass", nanStats⟩]

/-- The two reg_presence rows the witness fit produces. -/
def c2rows0 : List PresRow := [⟨"comp", "B1", nanStats⟩, ⟨"pass", "B1", nanStats⟩]

theorem claim_c2_witness :
    c2srows.length = 2 ∧
    c2srows.map SumRow.Outcome = ["comp", "pass"] ∧
    presence_results cex_fit [] ["B1"] = .ok (c2rows0.mergeSort le_outcome_baustein) ∧
    ((c2rows0.mergeSort le_outcome_baustein).filter
        (fun r => r.Baustein == "B1")).length = 2 ∧
    ((c2rows0.mergeSort le_outcome_baustein).filter
        (fun r => r.Baustein == "B1" && r.Outcome == "comp")).length = 1 ∧
    ((c2rows0.mergeSort le_outcome_baustein).filter
        (fun r => r.Baustein == "B1" && r.Outcome == "pass")).length = 1 ∧
    (c2rows0.mergeSort le_outcome_baustein).length = 2 * (["B1"] : List String).length ∧
    (specOf [] "comp" "n_bausteine").covType = "cluster" ∧
    (specOf [] "comp" "n_bausteine").groups = ([] : List AnRow).map AnRow.cluster :=
  claim_c2_regression_grid cex_fit [] ["B1"] "B1" "comp" "n_bausteine" c2srows c2rows0
    (by decide) (by decide) rfl rfl

/-! ## Claim C6: the two forest plots -/

theorem or_key_le_trans (a b c : Option ℚ) (hab : or_key_le a b = true)
    (hbc : or_key_le b c = true) : or_key_le a c = true := by
  cases a with
  | none =>
    cases b with
    | none => exact hbc
    | some y => simp [or_key_le] at hab
  | some x =>
    cases c with
    | none => cases b <;> rfl
    | some z =>
      cases b with
      | none => simp [or_key_le] at hbc
      | some y =>
        simp only [or_key_le, decide_eq_true_eq] at hab hbc ⊢
        exact le_trans hab hbc

theorem or_key_le_total (a b : Option ℚ) : (or_key_le a b || or_key_le b a) = true := by
  cases a with
  | none => cases b <;> rfl
  | some x =>
    cases b with
    | none => rfl
    | some y =>
      simp only [or_key_le, Bool.or_eq_true, decide_eq_true_eq]
      exact le_total x y

/-- Claim C6 (confirmed). The plotting stage produces exactly two forest plots
from reg_presence.csv, one from the rows whose Outcome contains comp
(case-insensitive) and one from the rows whose Outcome contains pass; in each
plot the entries are in ascending OR order (NaN last) and the y labels are the
Baustein names of the plotted rows in that order. -/
theorem claim_c6_two_sorted_forests (csv : List PlotRow) :
    (run_plot csv).length = 2 ∧
    (run_plot csv).map Forest.png = ["forest_compilation.png", "forest_testerfolg.png"] ∧
    (∀ F ∈ run_plot csv,
      F.points.Pairwise (fun a b => or_key_le a.OR b.OR = true) ∧
      F.yLabels = F.points.map PlotRow.Baustein) ∧
    ((run_plot csv).getD 0 default).points.Perm
      (csv.filter (fun r => contains_ci r.Outcome "comp")) ∧
    ((run_plot csv).getD 1 default).points.Perm
      (csv.filter (fun r => contains_ci r.Outcome "pass")) := by
  have hsorted : ∀ sub : List PlotRow,
      (sub.mergeSort (fun a b => or_key_le a.OR b.OR)).Pairwise
        (fun a b => or_key_le a.OR b.OR = true) := by
    intro sub
    exact @List.sorted_mergeSort PlotRow (fun a b => or_key_le a.OR b.OR)
      (fun x y z hxy hyz => or_key_le_trans _ _ _ hxy hyz)
      (fun x y => or_key_le_total _ _) sub
  refine ⟨rfl, rfl, ?_, ?_, ?_⟩
  · intro F hF
    simp only [run_plot, List.mem_cons, List.not_mem_nil, or_false] at hF
    rcases hF with rfl | rfl
    · exact ⟨hsorted _, rfl⟩
    · exact ⟨hsorted _, rfl⟩
  · exact List.mergeSort_perm _ _
  · exact List.mergeSort_perm _ _

/-! ## Claim C1: the reshape, corrected -/

/-- Every record of a task's list carries that task's cleaned label as cluster. -/
theorem records_of_task_clusters {df : List SheetRow} {j : ℕ} {lj : List Record}
    (h : records_of_task df j = .ok lj) {r : Record} (hr : r ∈ lj) :
    r.cluster = variant_clean (rowAt df j) := by
  rw [records_of_task] at h
  rcases exMap_ok_mem h hr with ⟨o, _, ho⟩
  exact (record_at_ok ho).1

/-- Counting rows per cluster over the concatenated per-task lists: with at
least five rows after every task row and pairwise distinct task labels, the
label of any task row occurs on exactly five records. -/
theorem flatten_countP_five (df : List SheetRow) :
    ∀ (tis : List ℕ) (ls : List (List Record)),
      List.Forall₂ (fun j lj => records_of_task df j = .ok lj) tis ls →
      (∀ j ∈ tis, j + 5 < df.length) →
      ((tis.map (fun j => variant_clean (rowAt df j))).Nodup) →
      ∀ i ∈ tis,
        ls.flatten.countP (fun r => r.cluster == variant_clean (rowAt df i)) = 5 := by
  intro tis ls h
  induction h with
  | nil =>
    intro _ _ i hi
    cases hi
  | @cons j lj tis2 ls2 hj htl ih =>
    intro h5 hnd i hi
    rw [List.flatten_cons, List.countP_append]
    rw [List.map_cons] at hnd
    rcases List.nodup_cons.mp hnd with ⟨hnd1, hnd2⟩
    rcases List.mem_cons.mp hi with rfl | hi2
    · have hcnt1 : lj.countP (fun r => r.cluster == variant_clean (rowAt df i)) =
          lj.length := by
        apply List.countP_eq_length.mpr
        intro r hrm
        simp [records_of_task_clusters hj hrm]
      have hlen : lj.length = 5 :=
        records_of_task_length_five (h5 i (List.mem_cons_self _ _)) hj
      have hcnt0 : ls2.flatten.countP
          (fun r => r.cluster == variant_clean (rowAt df i)) = 0 := by
        apply List.countP_eq_zero.mpr
        intro r hrf hbeq
        rcases List.mem_flatten.mp hrf with ⟨lj2, hlj2, hrlj2⟩
        rcases forall₂_mem_right htl hlj2 with ⟨j2, hj2mem, hj2⟩
        have hrc := records_of_task_clusters hj2 hrlj2
        have heq : variant_clean (rowAt df j2) = variant_clean (rowAt df i) := by
          rw [← hrc]
          exact eq_of_beq hbeq
        apply hnd1
        rw [← heq]
        exact List.mem_map_of_mem _ hj2mem
      omega
    · have hcnt0 : lj.countP (fun r => r.cluster == variant_clean (rowAt df i)) = 0 := by
        apply List.countP_eq_zero.mpr
        intro r hrm hbeq
        have h1 := records_of_task_clusters hj hrm
        have h2 : r.cluster = variant_clean (rowAt df i) := eq_of_beq hbeq
        apply hnd1
        rw [← h1, h2]
        exact List.mem_map_of_mem _ hi2
      have htail := ih (fun j2 hj2 => h5 j2 (List.mem_cons_of_mem _ hj2)) hnd2 i hi2
      omega

/-- Claim C1 (corrected). For every task row of any sheet, the reshape emits
one record per offset 1..5 whose row is still inside the sheet (rows past the
end are skipped), each record inheriting cluster, B values and n_bausteine
from the task row - this part holds unconditionally; and under the added
provisos that every task row has at least five rows after it and that the task
labels are pairwise distinct, the task's cluster has exactly five rows in the
output table. -/
theorem claim_c1_reshape (df : List SheetRow) (recs l : List Record) (i : ℕ) (r : Record)
    (hok : variant_rows df = .ok recs)
    (hi : i ∈ task_indices df)
    (hl : records_of_task df i = .ok l)
    (hr : r ∈ l) :
    l.length = (valid_offsets df i).length ∧
    r.cluster = variant_clean (rowAt df i) ∧
    r.bs = (rowAt df i).bs.map coerceB ∧
    r.n_bausteine = n_bausteine_of (rowAt df i) ∧
    ((∀ j ∈ task_indices df, j + 5 < df.length) →
      ((task_indices df).map (fun j => variant_clean (rowAt df j))).Nodup →
      (recs.filter (fun x => x.cluster == variant_clean (rowAt df i))).length = 5) := by
  have hl2 := hl
  rw [records_of_task] at hl2
  rcases exMap_ok_mem hl2 hr with ⟨o, _, ho⟩
  rcases record_at_ok ho with ⟨hc, hbs, hn⟩
  refine ⟨exMap_ok_length hl2, hc, hbs, hn, ?_⟩
  intro h5 hnd
  cases hex : exMap (records_of_task df) (task_indices df) with
  | error e => rw [variant_rows, hex] at hok; cases hok
  | ok ls =>
    rw [variant_rows, hex] at hok
    injection hok with h1
    subst h1
    rw [← List.countP_eq_length_filter]
    exact flatten_countP_five df _ _ (exMap_ok_iff.mp hex) h5 hnd i hi

theorem claim_c1_witness :
    sheetBrecs.length = (valid_offsets sheetB 0).length ∧
    (rec2 "I2a" 1 1).cluster = variant_clean (rowAt sheetB 0) ∧
    (rec2 "I2a" 1 1).bs = (rowAt sheetB 0).bs.map coerceB ∧
    (rec2 "I2a" 1 1).n_bausteine = n_bausteine_of (rowAt sheetB 0) ∧
    ((∀ j ∈ task_indices sheetB, j + 5 < sheetB.length) →
      ((task_indices sheetB).map (fun j => variant_clean (rowAt sheetB j))).Nodup →
      (sheetBrecs.filter
        (fun x => x.cluster == variant_clean (rowAt sheetB 0))).length = 5) :=
  claim_c1_reshape sheetB sheetBrecs sheetBrecs 0 (rec2 "I2a" 1 1)
    rfl (by decide) rfl (by decide)
